import Mathlib

set_option maxHeartbeats 1000000
set_option maxRecDepth 16384

/-!
Shallow embedding of the ebpfspy profiling session (session.go) of the
pyroscope eBPF profiler, together with proofs about its pid-state table,
harvest loop, stack walking and shutdown logic.

Bytes are modelled as naturals (each below 256), byte slices as `List Nat`,
Go strings as Lean `String`, and Go maps/sets over pids as association
lists / duplicate-free lists; a Go runtime panic (index out of range) is
modelled as `Option.none`.
-/

namespace PyroEbpf

/-- Go `string(bytes)` conversion used for the comm field. -/
def bytesToString (bs : List Nat) : String := String.mk (bs.map Char.ofNat)

/-- The index `len(comm)-1` computed (as a Go int) by the trailing-newline
trim in selectProfilingType. -/
def commIndex (comm : List Nat) : Int := (comm.length : Int) - 1

/-- The trailing-newline trim of selectProfilingType:
`if comm[len(comm)-1] == '\n' { comm = comm[:len(comm)-1] }`.
The unconditional index `comm[len(comm)-1]` panics (modelled as `none`)
when it is out of bounds. Byte 10 is the newline. -/
def trimCommGo (comm : List Nat) : Option (List Nat) :=
  let idx := commIndex comm
  if 0 ≤ idx ∧ idx < (comm.length : Int) then
    some (if comm.getD idx.toNat 0 = 10 then comm.take idx.toNat else comm)
  else
    none

/-- Go `filepath.Base` (linux separators): empty path gives ".", trailing
separators are stripped, the suffix after the last separator is returned,
and an all-separator path gives "/". -/
def filepathBase (p : String) : String :=
  if p = "" then "."
  else
    let r := p.toList.reverse.dropWhile (fun c => c == '/')
    if r = [] then "/"
    else String.mk (r.takeWhile (fun c => c != '/')).reverse

/-- pyrobpf profiling types used by the session. -/
inductive ProfilingType where
  | error
  | framePointers
  | python
  deriving DecidableEq, Repr

/-- procInfoLite: pid, comm, exe and the chosen profiling type.
(The Go code never assigns the exe field when classifying; it stays "".) -/
structure ProcInfoLite where
  pid : Nat
  comm : String
  exe : String
  typ : ProfilingType
  deriving DecidableEq, Repr

/-- SessionOptions (cache options and metrics handles are external
collaborators and are not part of the model). -/
structure SessionOptions where
  collectUser : Bool
  collectKernel : Bool
  unknownSymbolModuleOffset : Bool
  unknownSymbolAddress : Bool
  pythonEnabled : Bool
  sampleRate : Nat
  deriving DecidableEq, Repr

/-- selectProfilingType. `exeRes` is the result of `os.Readlink(/proc/pid/exe)`
and `commRes` the result of `os.ReadFile(/proc/pid/comm)`; `none` is a read
error. The result is `none` exactly when the newline trim panics (empty
comm read). The python test keeps Go operator precedence:
`PythonEnabled && HasPrefix(exe, "python") || exe == "uwsgi"`. -/
def selectProfilingType (o : SessionOptions) (pid : Nat)
    (exeRes : Option String) (commRes : Option (List Nat)) : Option ProcInfoLite :=
  match exeRes with
  | none => some { pid := pid, comm := "", exe := "", typ := .error }
  | some exePath =>
    match commRes with
    | none => some { pid := pid, comm := "", exe := "", typ := .error }
    | some commBytes =>
      match trimCommGo commBytes with
      | none => none
      | some comm =>
        let exe := filepathBase exePath
        if (o.pythonEnabled && exe.startsWith "python") || exe == "uwsgi" then
          some { pid := pid, comm := bytesToString comm, exe := "", typ := .python }
        else
          some { pid := pid, comm := bytesToString comm, exe := "", typ := .framePointers }

/-- Claim C9: the trailing-newline trim of selectProfilingType
unconditionally indexes the last byte of the comm read, so the access is
in-bounds exactly when the read returned at least one byte; under that
precondition it removes exactly one trailing newline if one is present and
leaves the content unchanged otherwise. -/
theorem claim9_comm_trim (comm : List Nat) :
    ((trimCommGo comm).isSome ↔ 1 ≤ comm.length)
    ∧ (∀ xs, comm = xs ++ [10] → trimCommGo comm = some xs)
    ∧ (comm ≠ [] → comm.getLast? ≠ some 10 → trimCommGo comm = some comm) := by
  refine ⟨?_, ?_, ?_⟩
  · simp only [trimCommGo, commIndex]
    by_cases h : (0 : Int) ≤ (comm.length : Int) - 1 ∧ (comm.length : Int) - 1 < (comm.length : Int)
    · rw [if_pos h]
      exact iff_of_true (by simp) (by omega)
    · rw [if_neg h]
      exact iff_of_false (by simp) (by omega)
  · rintro xs rfl
    simp only [trimCommGo, commIndex]
    have hlen : (xs ++ [10]).length = xs.length + 1 := by simp
    have hcond : (0 : Int) ≤ ((xs ++ [10]).length : Int) - 1 ∧
        ((xs ++ [10]).length : Int) - 1 < ((xs ++ [10]).length : Int) := by
      rw [hlen]; constructor <;> omega
    rw [if_pos hcond]
    have hidx : (((xs ++ [10]).length : Int) - 1).toNat = xs.length := by
      rw [hlen]; omega
    rw [hidx]
    have hget : (xs ++ [10]).getD xs.length 0 = 10 := by
      rw [List.getD_append_right _ _ _ _ (le_refl _)]
      simp
    rw [hget, if_pos rfl, List.take_left]
  · intro hne hlast
    simp only [trimCommGo, commIndex]
    have hlen : 1 ≤ comm.length := by
      cases comm with
      | nil => exact absurd rfl hne
      | cons a l => simp
    have hcond : (0 : Int) ≤ (comm.length : Int) - 1 ∧
        (comm.length : Int) - 1 < (comm.length : Int) := by omega
    rw [if_pos hcond]
    have hidx : ((comm.length : Int) - 1).toNat = comm.length - 1 := by omega
    rw [hidx]
    have hlt : comm.length - 1 < comm.length := by omega
    have hget : comm.getD (comm.length - 1) 0 ≠ 10 := by
      intro hg
      apply hlast
      rw [List.getD_eq_getElem _ _ hlt] at hg
      rw [List.getLast?_eq_getElem?, List.getElem?_eq_getElem hlt, hg]
    rw [if_neg hget]

/-- Witness for C9 at comm = "u\n" (bytes [117, 10]). -/
theorem claim9_witness :
    trimCommGo [117, 10] = some [117] :=
  (claim9_comm_trim [117, 10]).2.1 [117] rfl

/-- A successful, non-empty comm read always trims without panicking. -/
theorem trimCommGo_isSome_of_ne_nil {comm : List Nat} (h : comm ≠ []) :
    ∃ c, trimCommGo comm = some c := by
  have hlen : 1 ≤ comm.length := by
    cases comm with
    | nil => exact absurd rfl h
    | cons a l => simp
  simp only [trimCommGo, commIndex]
  rw [if_pos (by constructor <;> omega)]
  exact ⟨_, rfl⟩

/-- Claim C2 (counterexample): with python unwinding DISABLED and an exe
basename of "uwsgi", selectProfilingType classifies the pid as Python —
the Go condition parses as
`(PythonEnabled && HasPrefix(exe,"python")) || exe == "uwsgi"`,
not as the claim's `PythonEnabled && (HasPrefix || uwsgi)`. -/
theorem claim2_counterexample :
    (selectProfilingType
      { collectUser := true, collectKernel := true, unknownSymbolModuleOffset := false,
        unknownSymbolAddress := false, pythonEnabled := false, sampleRate := 97 }
      42 (some "/usr/bin/uwsgi") (some [117, 119, 115, 103, 105, 10])).map ProcInfoLite.typ
      = some ProfilingType.python
    ∧ ProfilingType.python ≠ ProfilingType.framePointers := by decide

/-- Claim C2 (amended): for every pid whose /proc/pid/exe and /proc/pid/comm
reads succeed (with a non-empty comm), selectProfilingType classifies the
pid as Python exactly when (python unwinding is enabled and the exe
basename starts with "python") OR the exe basename equals "uwsgi", and as
FramePointer otherwise. -/
theorem claim2_classification (o : SessionOptions) (pid : Nat) (exePath : String)
    (commB : List Nat) (h : commB ≠ []) :
    ∃ info, selectProfilingType o pid (some exePath) (some commB) = some info
      ∧ (info.typ = ProfilingType.python ↔
          ((o.pythonEnabled = true ∧ (filepathBase exePath).startsWith "python" = true)
            ∨ filepathBase exePath = "uwsgi"))
      ∧ (info.typ ≠ ProfilingType.python → info.typ = ProfilingType.framePointers) := by
  obtain ⟨c, hc⟩ := trimCommGo_isSome_of_ne_nil h
  simp only [selectProfilingType, hc]
  by_cases hb : ((o.pythonEnabled && (filepathBase exePath).startsWith "python")
      || filepathBase exePath == "uwsgi") = true
  · rw [if_pos hb]
    have hb' : (o.pythonEnabled = true ∧ (filepathBase exePath).startsWith "python" = true)
        ∨ filepathBase exePath = "uwsgi" := by
      simpa [Bool.or_eq_true, Bool.and_eq_true, beq_iff_eq] using hb
    exact ⟨_, rfl, iff_of_true rfl hb', fun hne => absurd rfl hne⟩
  · rw [if_neg hb]
    have hb' : ¬((o.pythonEnabled = true ∧ (filepathBase exePath).startsWith "python" = true)
        ∨ filepathBase exePath = "uwsgi") := by
      simpa [Bool.or_eq_true, Bool.and_eq_true, beq_iff_eq] using hb
    refine ⟨_, rfl, iff_of_false (by simp) hb', fun _ => rfl⟩

/-- Witness for C2 at a concrete python3 process. -/
theorem claim2_witness :
    ([112, 10] : List Nat) ≠ []
    ∧ ∃ info,
        selectProfilingType
          { collectUser := true, collectKernel := false, unknownSymbolModuleOffset := false,
            unknownSymbolAddress := false, pythonEnabled := true, sampleRate := 100 }
          7 (some "/usr/bin/python3") (some [112, 10]) = some info
        ∧ (info.typ = ProfilingType.python ↔
            ((true = true ∧ (filepathBase "/usr/bin/python3").startsWith "python" = true)
              ∨ filepathBase "/usr/bin/python3" = "uwsgi"))
        ∧ (info.typ ≠ ProfilingType.python → info.typ = ProfilingType.framePointers) :=
  ⟨by decide, claim2_classification _ 7 "/usr/bin/python3" [112, 10] (by decide)⟩

/-- binary.LittleEndian.Uint64: little-endian decode of 8 bytes. -/
def uint64LE (bs : List Nat) : Nat :=
  (bs.take 8).foldr (fun b acc => b + 256 * acc) 0

/-- The instruction pointer read by frame i of the WalkStack loop:
the 8 bytes stack[i*8 : i*8+8], little-endian. -/
def readPtr (stack : List Nat) (i : Nat) : Nat :=
  uint64LE ((stack.drop (8 * i)).take 8)

/-- A resolved symbol: Resolve(ip) gives name, module and module start. -/
structure Sym where
  name : String
  module : String
  start : Nat
  deriving DecidableEq, Repr

structure StackResolveStats where
  known : Nat
  unknownSymbols : Nat
  unknownModules : Nat
  deriving DecidableEq, Repr

/-- fmt.Sprintf("%x", n): lower-case hex without a radix marker. -/
def hexStr (n : Nat) : String := String.mk (Nat.toDigits 16 n)

/-- The frame name chosen by WalkStack for one resolved pointer. -/
def frameName (o : SessionOptions) (sym : Sym) (ip : Nat) : String :=
  if sym.name ≠ "" then sym.name
  else if sym.module ≠ "" then
    if o.unknownSymbolModuleOffset then sym.module ++ "+" ++ hexStr sym.start
    else sym.module
  else if o.unknownSymbolAddress then hexStr ip
  else "[unknown]"

/-- The stats increment performed by WalkStack for one resolved pointer. -/
def frameStats (sym : Sym) (st : StackResolveStats) : StackResolveStats :=
  if sym.name ≠ "" then { st with known := st.known + 1 }
  else if sym.module ≠ "" then { st with unknownSymbols := st.unknownSymbols + 1 }
  else { st with unknownModules := st.unknownModules + 1 }

/-- The WalkStack frame loop `for i := 0; i < 127; i++`, collecting frame
names in kernel (leaf-first) order; stops at the first zero pointer.
`fuel` is the number of remaining iterations (127 - i at the top call). -/
def walkStackLoop (o : SessionOptions) (resolve : Nat → Sym) (stack : List Nat) :
    Nat → Nat → StackResolveStats → List String × StackResolveStats
  | _, 0, stats => ([], stats)
  | i, fuel + 1, stats =>
    let ip := readPtr stack i
    if ip = 0 then ([], stats)
    else
      let sym := resolve ip
      let rest := walkStackLoop o resolve stack (i + 1) fuel (frameStats sym stats)
      (frameName o sym ip :: rest.1, rest.2)

/-- WalkStack: on a non-empty stack, walk up to 127 frames, reverse them
(root-first) and append each to the builder. This value-level model reads
an out-of-range pointer as zero; in Go that access is a slice-bounds
panic, which walkSteps/walkStackGo below model, so theorems use this
function only at inputs whose reads are all in bounds (a full 1016-byte
Stacks-map value, the kernel contract, or the zero-length nil slice). -/
def walkStack (o : SessionOptions) (sb : List String) (stack : List Nat)
    (resolve : Nat → Sym) (stats : StackResolveStats) :
    List String × StackResolveStats :=
  if stack.length = 0 then (sb, stats)
  else
    let r := walkStackLoop o resolve stack 0 127 stats
    (sb ++ r.1.reverse, r.2)

/-- Access-level model of the WalkStack loop: the slice expression
stack[i*8 : i*8+8] panics (modelled as none) when i*8+8 > len(stack);
otherwise the loop proceeds exactly as the source does. -/
def walkSteps (stack : List Nat) : Nat → Nat → Option (List Nat)
  | _, 0 => some []
  | i, fuel + 1 =>
    if 8 * i + 8 ≤ stack.length then
      let ip := readPtr stack i
      if ip = 0 then some []
      else
        match walkSteps stack (i + 1) fuel with
        | none => none
        | some rest => some (ip :: rest)
    else none

/-- WalkStack at the slice-access level (pointers only): empty input
returns immediately, otherwise the 127-iteration loop runs. -/
def walkStackGo (stack : List Nat) : Option (List Nat) :=
  if stack.length = 0 then some []
  else walkSteps stack 0 127

/-- The frame loop produces exactly the names of the pointers up to the
first zero, in leaf-first order. -/
theorem walkStackLoop_eq_takeWhile (o : SessionOptions) (resolve : Nat → Sym)
    (stack : List Nat) :
    ∀ (fuel i : Nat) (stats : StackResolveStats),
      (walkStackLoop o resolve stack i fuel stats).1
        = (((List.range' i fuel).map (readPtr stack)).takeWhile (fun p => p != 0)).map
            (fun ip => frameName o (resolve ip) ip) := by
  intro fuel
  induction fuel with
  | zero => intro i stats; simp [walkStackLoop]
  | succ n ih =>
    intro i stats
    rw [List.range'_succ]
    by_cases h : readPtr stack i = 0
    · have hb : (readPtr stack i != 0) = false := by simp [h]
      simp [walkStackLoop, h, hb, List.takeWhile_cons]
    · have hb : (readPtr stack i != 0) = true := by simp [h]
      simp [walkStackLoop, h, hb, List.takeWhile_cons, ih]

/-- takeWhile of "nonzero" is take up to the index of the first zero. -/
theorem takeWhile_ne_eq_take_findIdx (l : List Nat) :
    l.takeWhile (fun p => p != 0) = l.take (l.findIdx (fun p => p == 0)) := by
  induction l with
  | nil => rfl
  | cons a l ih =>
    by_cases h : a = 0
    · subst h; simp [List.takeWhile_cons, List.findIdx_cons]
    · have hb : (a == 0) = false := by simp [h]
      simp [List.takeWhile_cons, List.findIdx_cons, h, hb, ih]

/-- Claim C5: for a 1016-byte stack (127 little-endian 64-bit pointers),
WalkStack appends exactly min(k, 127) frames to the builder, where k is
the index of the first zero pointer (127 when none is zero), and the
appended frames are the resolved names of the pointers before the first
zero in reversed (root-first) order relative to the kernel's leaf-first
layout. -/
theorem claim5_walkstack_frames (o : SessionOptions) (resolve : Nat → Sym)
    (sb : List String) (stats : StackResolveStats) (stack : List Nat)
    (h : stack.length = 1016) :
    (walkStack o sb stack resolve stats).1
      = sb ++ ((((List.range 127).map (readPtr stack)).take
          (((List.range 127).map (readPtr stack)).findIdx (fun p => p == 0))).map
          (fun ip => frameName o (resolve ip) ip)).reverse
    ∧ (walkStack o sb stack resolve stats).1.length
      = sb.length + min (((List.range 127).map (readPtr stack)).findIdx (fun p => p == 0)) 127 := by
  have hne : ¬ stack.length = 0 := by omega
  have h1 : (walkStack o sb stack resolve stats).1
      = sb ++ ((walkStackLoop o resolve stack 0 127 stats).1).reverse := by
    simp [walkStack, hne]
  rw [h1, walkStackLoop_eq_takeWhile, ← List.range_eq_range', takeWhile_ne_eq_take_findIdx]
  refine ⟨rfl, ?_⟩
  rw [List.length_append, List.length_reverse, List.length_map, List.length_take]
  simp

/-- Witness for C5: a pointer 1 followed by a zero terminator. -/
theorem claim5_witness :
    (walkStack
        { collectUser := true, collectKernel := false, unknownSymbolModuleOffset := false,
          unknownSymbolAddress := false, pythonEnabled := false, sampleRate := 100 }
        [] (1 :: List.replicate 1015 0) (fun _ => { name := "f", module := "", start := 0 })
        { known := 0, unknownSymbols := 0, unknownModules := 0 }).1
      = [] ++ ((((List.range 127).map (readPtr (1 :: List.replicate 1015 0))).take
          (((List.range 127).map (readPtr (1 :: List.replicate 1015 0))).findIdx
            (fun p => p == 0))).map
          (fun ip => frameName
            { collectUser := true, collectKernel := false, unknownSymbolModuleOffset := false,
              unknownSymbolAddress := false, pythonEnabled := false, sampleRate := 100 }
            ((fun _ => ({ name := "f", module := "", start := 0 } : Sym)) ip) ip)).reverse
    ∧ (walkStack
        { collectUser := true, collectKernel := false, unknownSymbolModuleOffset := false,
          unknownSymbolAddress := false, pythonEnabled := false, sampleRate := 100 }
        [] (1 :: List.replicate 1015 0) (fun _ => { name := "f", module := "", start := 0 })
        { known := 0, unknownSymbols := 0, unknownModules := 0 }).1.length
      = ([] : List String).length
        + min (((List.range 127).map (readPtr (1 :: List.replicate 1015 0))).findIdx
            (fun p => p == 0)) 127 :=
  claim5_walkstack_frames _ _ [] _ (1 :: List.replicate 1015 0)
    (by rw [List.length_cons, List.length_replicate])

/-- Safety of the loop when every access fits: no out-of-range slice. -/
theorem walkSteps_isSome_of_le (stack : List Nat) :
    ∀ (fuel i : Nat), 8 * (i + fuel) ≤ stack.length →
      (walkSteps stack i fuel).isSome = true := by
  intro fuel
  induction fuel with
  | zero => intro i _; simp [walkSteps]
  | succ n ih =>
    intro i h
    have hacc : 8 * i + 8 ≤ stack.length := by omega
    simp only [walkSteps, if_pos hacc]
    by_cases hz : readPtr stack i = 0
    · simp [hz]
    · have := ih (i + 1) (by omega)
      rw [if_neg hz]
      cases hsi : walkSteps stack (i + 1) n with
      | none => rw [hsi] at this; simp at this
      | some rest => simp

/-- When the input is too short and no readable pointer is zero, the loop
reaches the out-of-range branch. -/
theorem walkSteps_none_of_short (stack : List Nat) :
    ∀ (fuel i : Nat), 8 * i ≤ stack.length → stack.length < 8 * (i + fuel) →
      (∀ j, 8 * j + 8 ≤ stack.length → readPtr stack j ≠ 0) →
      walkSteps stack i fuel = none := by
  intro fuel
  induction fuel with
  | zero => intro i h1 h2 _; omega
  | succ n ih =>
    intro i h1 h2 hz
    by_cases hacc : 8 * i + 8 ≤ stack.length
    · have hnz : ¬ readPtr stack i = 0 := hz i hacc
      simp only [walkSteps, if_pos hacc, if_neg hnz]
      rw [ih (i + 1) (by omega) (by omega) hz]
    · simp [walkSteps, hacc]

/-- Claim C8: WalkStack performs only in-bounds slice reads for inputs of
length 0 or at least 1016 bytes; for a non-empty input shorter than 1016
bytes, in-bounds execution forces a zero instruction pointer before the
slice end. -/
theorem claim8_walkstack_bounds (stack : List Nat) :
    (stack.length = 0 → walkStackGo stack = some [])
    ∧ (1016 ≤ stack.length → (walkStackGo stack).isSome = true)
    ∧ (0 < stack.length → stack.length < 1016 → (walkStackGo stack).isSome = true →
        ∃ j, 8 * j + 8 ≤ stack.length ∧ readPtr stack j = 0) := by
  refine ⟨?_, ?_, ?_⟩
  · intro h; simp [walkStackGo, h]
  · intro h
    have hne : ¬ stack.length = 0 := by omega
    simp only [walkStackGo, if_neg hne]
    exact walkSteps_isSome_of_le stack 127 0 (by omega)
  · intro h0 hlt hsome
    by_contra hnex
    push_neg at hnex
    have hne : ¬ stack.length = 0 := by omega
    have : walkSteps stack 0 127 = none :=
      walkSteps_none_of_short stack 127 0 (by omega) (by omega)
        (fun j hj => hnex j hj)
    rw [walkStackGo, if_neg hne, this] at hsome
    simp at hsome

/-- Witness for C8: a full 1016-byte stack is safe; the empty stack is
safe; an 8-byte stack whose single pointer is zero satisfies the
zero-before-end condition produced by the theorem. -/
theorem claim8_witness :
    (walkStackGo [] = some [])
    ∧ (walkStackGo (List.replicate 1016 1)).isSome = true
    ∧ ∃ j, 8 * j + 8 ≤ ([0, 0, 0, 0, 0, 0, 0, 0] : List Nat).length
        ∧ readPtr [0, 0, 0, 0, 0, 0, 0, 0] j = 0 :=
  ⟨(claim8_walkstack_bounds []).1 rfl,
   (claim8_walkstack_bounds _).2.1 (by rw [List.length_replicate]),
   (claim8_walkstack_bounds _).2.2 (by decide) (by decide) (by decide)⟩

/-! ### Pid-state table and session state -/

/-- Go map-key insertion into a pid set (idempotent). -/
def insertPid (l : List Nat) (p : Nat) : List Nat :=
  if l.contains p then l else p :: l

/-- Go `delete` on a pid set. -/
def removePid (l : List Nat) (p : Nat) : List Nat :=
  l.filter (fun q => q != p)

/-- Go `delete` on the pid → procInfoLite map. -/
def removeKey (m : List (Nat × ProcInfoLite)) (p : Nat) : List (Nat × ProcInfoLite) :=
  m.filter (fun kv => kv.1 != p)

/-- Go map assignment on the pid → procInfoLite map. -/
def insertKey (m : List (Nat × ProcInfoLite)) (p : Nat) (v : ProcInfoLite) :
    List (Nat × ProcInfoLite) :=
  (p, v) :: removeKey m p

/-- The three pid views of the session. -/
structure Pids where
  unknown : List Nat
  dead : List Nat
  all : List (Nat × ProcInfoLite)
  deriving DecidableEq, Repr

/-- Session state: options, round number, lifecycle flag, pid views and
the owned handles (perf events, kprobes, ring reader, the three queues,
and the python unwinder). Handles are opaque numbers. -/
structure SessState where
  options : SessionOptions
  roundNumber : Nat
  started : Bool
  pids : Pids
  perfEvents : List Nat
  kprobes : List Nat
  eventsReader : Option Nat
  chanPidInfo : Option Nat
  chanDead : Option Nat
  chanExec : Option Nat
  pyperf : Option Nat
  deriving DecidableEq, Repr

/-- NewSession: empty pid views, not started, no handles. -/
def newSession (o : SessionOptions) : SessState :=
  { options := o, roundNumber := 0, started := false,
    pids := { unknown := [], dead := [], all := [] },
    perfEvents := [], kprobes := [], eventsReader := none,
    chanPidInfo := none, chanDead := none, chanExec := none, pyperf := none }

/-- s.comm(pid): the comm recorded in pids.all; a missing key yields the
zero value "", and an empty comm falls back to "pid_unknown". -/
def commOf (all : List (Nat × ProcInfoLite)) (pid : Nat) : String :=
  let c := ((all.lookup pid).map ProcInfoLite.comm).getD ""
  if c ≠ "" then c else "pid_unknown"

/-- setPidConfig: record the procInfoLite in pids.all (the kernel Pids-map
update is an external effect whose failure is logged and swallowed). -/
def setPidConfig (st : SessState) (pid : Nat) (pi : ProcInfoLite) : SessState :=
  { st with pids := { st.pids with all := insertKey st.pids.all pid pi } }

/-- startProfilingLocked: no-op when not started; python pids start their
unwinder on a separate goroutine (no immediate session-state change);
other classifications go through setPidConfig. `none` propagates the
selectProfilingType panic on an empty comm read. -/
def startProfilingLocked (st : SessState) (pid : Nat)
    (exeRes : Option String) (commRes : Option (List Nat)) : Option SessState :=
  if !st.started then some st
  else
    match selectProfilingType st.options pid exeRes commRes with
    | none => none
    | some typ =>
      if typ.typ = ProfilingType.python then some st
      else some (setPidConfig st pid typ)

/-- saveUnknownPIDLocked: insert the pid into the unknown set only. -/
def saveUnknownPIDLocked (st : SessState) (pid : Nat) : SessState :=
  { st with pids := { st.pids with unknown := insertPid st.pids.unknown pid } }

/-- The shared body of processPidInfoRequests / processPIDExecRequests for
one drained pid: dead pids are ignored, untargeted pids are saved as
unknown, targeted pids start profiling. -/
def handlePidEvent (st : SessState) (pid : Nat) (target : Option Nat)
    (exeRes : Option String) (commRes : Option (List Nat)) : Option SessState :=
  if st.pids.dead.contains pid then some st
  else
    match target with
    | none => some (saveUnknownPIDLocked st pid)
    | some _ => startProfilingLocked st pid exeRes commRes

/-- processDeadPIDsEvents for one pid: insert into dead (kept until the
next cleanup). -/
def handleDeadPid (st : SessState) (pid : Nat) : SessState :=
  { st with pids := { st.pids with dead := insertPid st.pids.dead pid } }

/-- UpdateTargets: re-examine every unknown pid; those that now have a
target transition to profiling and leave the unknown set. The target
finder and the /proc reads are oracles. -/
def updateTargets (st : SessState) (find : Nat → Option Nat)
    (exeOf : Nat → Option String) (commReadOf : Nat → Option (List Nat)) :
    Option SessState :=
  st.pids.unknown.foldlM
    (fun acc pid =>
      match find pid with
      | none => some acc
      | some _ => do
        let acc' ← startProfilingLocked acc pid (exeOf pid) (commReadOf pid)
        some { acc' with
               pids := { acc'.pids with unknown := removePid acc'.pids.unknown pid } })
    st

/-- The close operations stopLocked performs, in source order. -/
inductive CloseAct where
  | perfEvent (h : Nat)
  | kprobe (h : Nat)
  | bpfObjs
  | pyperfClose
  | reader (h : Nat)
  | chanPidInfo
  | chanDead
  | chanExec
  deriving DecidableEq, Repr

/-- stopLocked: close perf events, kprobes, the BPF objects
(unconditionally), the python unwinder when present (the field is never
cleared), the ring reader and the three queues; clear every field except
pyperf and set started := false. -/
def stopLocked (st : SessState) : SessState × List CloseAct :=
  let acts :=
    st.perfEvents.map CloseAct.perfEvent
    ++ st.kprobes.map CloseAct.kprobe
    ++ [CloseAct.bpfObjs]
    ++ (match st.pyperf with | some _ => [CloseAct.pyperfClose] | none => [])
    ++ (match st.eventsReader with | some h => [CloseAct.reader h] | none => [])
    ++ (match st.chanPidInfo with | some _ => [CloseAct.chanPidInfo] | none => [])
    ++ (match st.chanDead with | some _ => [CloseAct.chanDead] | none => [])
    ++ (match st.chanExec with | some _ => [CloseAct.chanExec] | none => [])
  let cleared := { st with perfEvents := [], kprobes := [], eventsReader := none,
                           chanPidInfo := none, chanDead := none, chanExec := none,
                           started := false }
  (cleared, acts)

/-! ### Cleanup -/

/-- One iteration of cleanup's dead loop: delete the pid from all three
views (the symbol-cache, python-unwinder, kernel-map and target-finder
evictions touch only external collaborators). -/
def cleanupDeadStep (acc : Pids) (q : Nat) : Pids :=
  { dead := removePid acc.dead q,
    unknown := removePid acc.unknown q,
    all := removeKey acc.all q }

/-- One iteration of cleanup's unknown loop: an unknown pid whose /proc
directory no longer exists is dropped from unknown and all. -/
def cleanupUnknownStep (alive : Nat → Bool) (acc : Pids) (q : Nat) : Pids :=
  if alive q then acc
  else { acc with unknown := removePid acc.unknown q, all := removeKey acc.all q }

/-- cleanup's effect on the pid views (the tenth-round stale-pid reaper
touches only the kernel Pids map and is not part of the pid views). -/
def cleanupPids (alive : Nat → Bool) (p : Pids) : Pids :=
  let p1 := p.dead.foldl cleanupDeadStep p
  p1.unknown.foldl (cleanupUnknownStep alive) p1

/-! ### Harvest engine -/

/-- A key of the kernel Counts map. -/
structure CountKey where
  pid : Nat
  userStack : Int
  kernStack : Int
  deriving DecidableEq, Repr

/-- One sample delivered to the CollectProfiles callback. -/
structure Sample where
  target : Nat
  stack : List String
  value : Nat
  pid : Nat
  aggregated : Bool
  deriving DecidableEq, Repr

def stats0 : StackResolveStats :=
  { known := 0, unknownSymbols := 0, unknownModules := 0 }

/-- The oracles CollectProfiles consults: the python pass (whose body
lives outside this file's sources and is abstracted by its emitted
samples and result), the Counts-map drain, the two clears, the target
finder, the symbol cache and the /proc liveness checks. -/
structure CollectEnv where
  pyEmitted : List Sample
  pyErr : Option String
  drain : Except String (List (CountKey × Nat))
  clearCountsErr : Option String
  clearStacksErr : Option String
  findTarget : Nat → Option Nat
  procErr : Nat → Bool
  stacksMap : Nat → Option (List Nat)
  procResolve : Nat → Nat → Sym
  kallsyms : Nat → Sym
  alive : Nat → Bool

/-- GetStack: negative ids give nil; the id is truncated to u32 and looked
up, a lookup error gives nil. -/
def getStack (env : CollectEnv) (stackId : Int) : List Nat :=
  if stackId < 0 then []
  else (env.stacksMap (stackId.toNat % 2 ^ 32)).getD []

/-- The knownStacks bookkeeping of one loop iteration (non-negative stack
ids, truncated to u32). -/
def entryKnownStacks (acc : List Nat) (ck : CountKey) : List Nat :=
  let a1 := if 0 ≤ ck.userStack then insertPid acc (ck.userStack.toNat % 2 ^ 32) else acc
  if 0 ≤ ck.kernStack then insertPid a1 (ck.kernStack.toNat % 2 ^ 32) else a1

/-- The stack the builder holds for one Counts entry: the comm first,
then the user walk (if collecting user stacks), then the kernel walk
(if collecting kernel stacks), leaf frames last within each walk. -/
def buildStack (o : SessionOptions) (env : CollectEnv)
    (all : List (Nat × ProcInfoLite)) (ck : CountKey) : List String :=
  let uStack := if o.collectUser then getStack env ck.userStack else []
  let kStack := if o.collectKernel then getStack env ck.kernStack else []
  let sb0 := [commOf all ck.pid]
  let r1 := if o.collectUser then
      walkStack o sb0 uStack (env.procResolve ck.pid) stats0
    else (sb0, stats0)
  let r2 := if o.collectKernel then
      walkStack o r1.1 kStack env.kallsyms r1.2
    else r1
  r2.1

/-- Accumulator of the regular-pass loop. -/
structure RegOut where
  samples : List Sample
  dead : List Nat
  knownStacks : List Nat
  deriving DecidableEq, Repr

/-- One iteration of collectRegularProfile's loop over the drained Counts
entries: record known stack ids, skip untargeted pids, skip dead pids,
mark pids with a proc-table error dead, skip builders holding only the
comm, and otherwise emit the reversed builder as an aggregated sample. -/
def collectEntry (o : SessionOptions) (env : CollectEnv)
    (all : List (Nat × ProcInfoLite)) (acc : RegOut) (e : CountKey × Nat) : RegOut :=
  let ck := e.1
  let acc1 := { acc with knownStacks := entryKnownStacks acc.knownStacks ck }
  match env.findTarget ck.pid with
  | none => acc1
  | some labels =>
    if acc1.dead.contains ck.pid then acc1
    else if env.procErr ck.pid then
      { acc1 with dead := insertPid acc1.dead ck.pid }
    else
      let sb := buildStack o env all ck
      if sb.length = 1 then acc1
      else
        { acc1 with samples := acc1.samples
            ++ [{ target := labels, stack := sb.reverse, value := e.2,
                  pid := ck.pid, aggregated := true }] }

/-- The regular-pass loop over all drained entries, starting from the
dead set as it stands when the loop begins. -/
def collectRegularLoop (o : SessionOptions) (env : CollectEnv)
    (all : List (Nat × ProcInfoLite)) (entries : List (CountKey × Nat))
    (dead0 : List Nat) : RegOut :=
  entries.foldl (collectEntry o env all) { samples := [], dead := dead0, knownStacks := [] }

/-- The externally visible phases of one CollectProfiles call. -/
inductive HarvestStep where
  | python
  | drain
  | clearCounts
  | clearStacks
  | cleanupStep
  deriving DecidableEq, Repr

/-- Everything one CollectProfiles call produces: its result, the phases
that ran, the python-pass and regular-pass callback emissions, and the
resulting session state. -/
structure CollectOut where
  result : Except String Unit
  steps : List HarvestStep
  pySamples : List Sample
  regSamples : List Sample
  state : SessState
  deriving Repr

/-- CollectProfiles: advance the round, run the python pass (abort on its
error), drain the Counts map (abort on error, wrapped), run the regular
loop, clear the Counts and Stacks maps (abort on error, wrapped, after
the loop's emissions and dead-marks), then cleanup. -/
def collectProfiles (env : CollectEnv) (st : SessState) : CollectOut :=
  let st1 := { st with roundNumber := st.roundNumber + 1 }
  match env.pyErr with
  | some e =>
    { result := .error e, steps := [.python], pySamples := env.pyEmitted,
      regSamples := [], state := st1 }
  | none =>
    match env.drain with
    | .error e =>
      { result := .error ("get counts map: " ++ e), steps := [.python, .drain],
        pySamples := env.pyEmitted, regSamples := [], state := st1 }
    | .ok entries =>
      let out := collectRegularLoop st1.options env st1.pids.all entries st1.pids.dead
      let st2 := { st1 with pids := { st1.pids with dead := out.dead } }
      match env.clearCountsErr with
      | some e =>
        { result := .error ("clear counts map " ++ e),
          steps := [.python, .drain, .clearCounts],
          pySamples := env.pyEmitted, regSamples := out.samples, state := st2 }
      | none =>
        match env.clearStacksErr with
        | some e =>
          { result := .error ("clear stacks map " ++ e),
            steps := [.python, .drain, .clearCounts, .clearStacks],
            pySamples := env.pyEmitted, regSamples := out.samples, state := st2 }
        | none =>
          { result := .ok (),
            steps := [.python, .drain, .clearCounts, .clearStacks, .cleanupStep],
            pySamples := env.pyEmitted, regSamples := out.samples,
            state := { st2 with pids := cleanupPids env.alive st2.pids } }

/-- The public operations and queue-event handlers of the session, each
carrying the oracle answers it consumes. -/
inductive Op where
  | start (ok : Bool) (perf : List Nat) (kps : List Nat) (reader ci cd ce : Nat)
  | stop
  | update (o : SessionOptions)
  | updateTargets (find : Nat → Option Nat) (exeOf : Nat → Option String)
      (commReadOf : Nat → Option (List Nat))
  | collect (env : CollectEnv)
  | pidInfo (pid : Nat) (target : Option Nat) (exeRes : Option String)
      (commRes : Option (List Nat))
  | pidExec (pid : Nat) (target : Option Nat) (exeRes : Option String)
      (commRes : Option (List Nat))
  | pidDead (pid : Nat)

/-- The session-state transition of each operation (`none` is a panic). -/
def applyOp (st : SessState) : Op → Option SessState
  | .start ok perf kps rd ci cd ce =>
    if ok then
      some { st with perfEvents := perf, kprobes := kps, eventsReader := some rd,
                     chanPidInfo := some ci, chanDead := some cd, chanExec := some ce,
                     started := true }
    else some (stopLocked st).1
  | .stop => some (stopLocked st).1
  | .update o => some { st with options := o }
  | .updateTargets find exeOf commReadOf => updateTargets st find exeOf commReadOf
  | .collect env => some (collectProfiles env st).state
  | .pidInfo pid target exeRes commRes => handlePidEvent st pid target exeRes commRes
  | .pidExec pid target exeRes commRes => handlePidEvent st pid target exeRes commRes
  | .pidDead pid => some (handleDeadPid st pid)

/-! ### Helper lemmas on the pid-set operations -/

theorem contains_iff_mem {l : List Nat} {p : Nat} :
    l.contains p = true ↔ p ∈ l :=
  List.elem_iff

theorem mem_insertPid {l : List Nat} {p q : Nat} :
    q ∈ insertPid l p ↔ q = p ∨ q ∈ l := by
  simp only [insertPid]
  split_ifs with h
  · rw [List.elem_iff] at h
    constructor
    · exact Or.inr
    · rintro (rfl | hq)
      · exact h
      · exact hq
  · simp [List.mem_cons]

theorem mem_insertPid_of_mem {l : List Nat} {p q : Nat} (h : q ∈ l) :
    q ∈ insertPid l p :=
  mem_insertPid.mpr (Or.inr h)

theorem self_mem_insertPid {l : List Nat} {p : Nat} : p ∈ insertPid l p :=
  mem_insertPid.mpr (Or.inl rfl)

theorem mem_removePid {l : List Nat} {p q : Nat} :
    q ∈ removePid l p ↔ q ∈ l ∧ q ≠ p := by
  simp [removePid, List.mem_filter]

theorem not_mem_removePid_self {l : List Nat} {p : Nat} : p ∉ removePid l p := by
  intro h
  exact absurd rfl (mem_removePid.mp h).2

theorem removePid_subset {l : List Nat} {p : Nat} : removePid l p ⊆ l :=
  fun _ h => (mem_removePid.mp h).1

theorem lookup_removeKey_self {m : List (Nat × ProcInfoLite)} {p : Nat} :
    (removeKey m p).lookup p = none := by
  induction m with
  | nil => rfl
  | cons kv m ih =>
    obtain ⟨k, v⟩ := kv
    by_cases h : k = p
    · simpa [removeKey, h] using ih
    · have hb : (k != p) = true := by simp [h]
      have hk : (p == k) = false := by simp [Ne.symm h]
      simpa [removeKey, List.filter_cons, hb, List.lookup, hk] using ih

theorem lookup_removeKey_isSome {m : List (Nat × ProcInfoLite)} {p q : Nat}
    (h : ((removeKey m p).lookup q).isSome = true) : (m.lookup q).isSome = true := by
  induction m with
  | nil => simp [removeKey] at h
  | cons kv m ih =>
    obtain ⟨k, v⟩ := kv
    by_cases hkv : k = p
    · have hb : (k != p) = false := by simp [hkv]
      rw [removeKey, List.filter_cons] at h
      simp only [hb] at h
      by_cases hq : q = k
      · simp [List.lookup, hq]
      · have hq' : (q == k) = false := by simp [hq]
        simp only [List.lookup, hq']
        exact ih h
    · have hb : (k != p) = true := by simp [hkv]
      rw [removeKey, List.filter_cons] at h
      simp only [hb, if_true] at h
      by_cases hq : q = k
      · simp [List.lookup, hq]
      · have hq' : (q == k) = false := by simp [hq]
        simp only [List.lookup, hq'] at h ⊢
        exact ih h

/-! ### Claim C7: redundant Stop -/

/-- Claim C7 (counterexample): on a session holding a python unwinder, a
second Stop is not free of double closes — the first Stop clears the perf
events, kprobes, ring reader and queues, but the BPF objects are closed
unconditionally on every Stop and the pyperf handle is never cleared, so
both are closed again. -/
theorem claim7_counterexample :
    (stopLocked (stopLocked
      { options := { collectUser := true, collectKernel := true,
                     unknownSymbolModuleOffset := false, unknownSymbolAddress := false,
                     pythonEnabled := true, sampleRate := 100 },
        roundNumber := 3, started := true,
        pids := { unknown := [], dead := [], all := [] },
        perfEvents := [11, 12], kprobes := [21], eventsReader := some 31,
        chanPidInfo := some 41, chanDead := some 42, chanExec := some 43,
        pyperf := some 51 }).1).2
      = [CloseAct.bpfObjs, CloseAct.pyperfClose]
    ∧ ([CloseAct.bpfObjs, CloseAct.pyperfClose] : List CloseAct) ≠ [] := by decide

/-- Claim C7 (amended): a redundant Stop leaves the session state exactly
as the first Stop left it (idempotent on state) and re-closes nothing
among the perf events, kprobes, ring reader and queues — those handles
were cleared by the first Stop — but it does invoke Close again on the
BPF objects and, when a python unwinder is attached, on the pyperf
handle. -/
theorem claim7_stop_idempotent (st : SessState) :
    (stopLocked (stopLocked st).1).1 = (stopLocked st).1
    ∧ (stopLocked (stopLocked st).1).2
      = CloseAct.bpfObjs ::
          (match st.pyperf with
           | some _ => [CloseAct.pyperfClose]
           | none => []) := by
  cases hp : st.pyperf <;> simp [stopLocked, hp]

/-! ### Claims C1 and C4: the regular-pass loop -/

/-- WalkStack only ever appends to the builder. -/
theorem walkStack_shape (o : SessionOptions) (sb : List String) (stack : List Nat)
    (resolve : Nat → Sym) (stats : StackResolveStats) :
    ∃ t, (walkStack o sb stack resolve stats).1 = sb ++ t := by
  by_cases h : stack.length = 0
  · exact ⟨[], by simp [walkStack, h]⟩
  · refine ⟨(walkStackLoop o resolve stack 0 127 stats).1.reverse, ?_⟩
    simp [walkStack, h]

/-- The builder for one Counts entry always starts with the comm. -/
theorem buildStack_shape (o : SessionOptions) (env : CollectEnv)
    (all : List (Nat × ProcInfoLite)) (ck : CountKey) :
    ∃ t, buildStack o env all ck = commOf all ck.pid :: t := by
  have key : ∀ (sb : List String) (stack : List Nat) (resolve : Nat → Sym)
      (stats : StackResolveStats) (t0 : List String), sb = commOf all ck.pid :: t0 →
      ∃ t, (walkStack o sb stack resolve stats).1 = commOf all ck.pid :: t := by
    intro sb stack resolve stats t0 hsb
    obtain ⟨t, ht⟩ := walkStack_shape o sb stack resolve stats
    exact ⟨t0 ++ t, by rw [ht, hsb]; simp⟩
  simp only [buildStack]
  by_cases hu : o.collectUser <;> by_cases hk : o.collectKernel <;>
      simp only [hu, hk, if_true, if_false, Bool.false_eq_true, if_neg, ite_false, ite_true]
  · obtain ⟨t1, h1⟩ := key [commOf all ck.pid] (getStack env ck.userStack)
      (env.procResolve ck.pid) stats0 [] rfl
    exact key _ _ _ _ t1 h1
  · exact key [commOf all ck.pid] (getStack env ck.userStack)
      (env.procResolve ck.pid) stats0 [] rfl
  · exact key [commOf all ck.pid] (getStack env ck.kernStack) env.kallsyms stats0 [] rfl
  · exact ⟨[], rfl⟩

/-- What one loop iteration does to the dead set and the emissions:
the dead set only grows, and an emission (if any) is the reversed builder
for a pid that was not dead at that iteration, with a builder longer than
just the comm. -/
theorem collectEntry_spec (o : SessionOptions) (env : CollectEnv)
    (all : List (Nat × ProcInfoLite)) (acc : RegOut) (e : CountKey × Nat) :
    acc.dead ⊆ (collectEntry o env all acc e).dead
    ∧ ((collectEntry o env all acc e).samples = acc.samples
       ∨ ∃ labels, acc.dead.contains e.1.pid = false
           ∧ (buildStack o env all e.1).length ≠ 1
           ∧ (collectEntry o env all acc e).samples
             = acc.samples ++ [{ target := labels, stack := (buildStack o env all e.1).reverse,
                                 value := e.2, pid := e.1.pid, aggregated := true }]) := by
  cases hft : env.findTarget e.1.pid with
  | none =>
    have heq : collectEntry o env all acc e
        = { acc with knownStacks := entryKnownStacks acc.knownStacks e.1 } := by
      simp only [collectEntry, hft]
    rw [heq]
    exact ⟨fun q hq => hq, Or.inl rfl⟩
  | some labels =>
    cases hdc : acc.dead.contains e.1.pid with
    | true =>
      have heq : collectEntry o env all acc e
          = { acc with knownStacks := entryKnownStacks acc.knownStacks e.1 } := by
        simp only [collectEntry, hft, hdc, if_true]
      rw [heq]
      exact ⟨fun q hq => hq, Or.inl rfl⟩
    | false =>
      cases hpe : env.procErr e.1.pid with
      | true =>
        have heq : collectEntry o env all acc e
            = { acc with knownStacks := entryKnownStacks acc.knownStacks e.1,
                         dead := insertPid acc.dead e.1.pid } := by
          simp only [collectEntry, hft, hdc, hpe, Bool.false_eq_true, if_false, if_true]
        rw [heq]
        exact ⟨fun q hq => mem_insertPid_of_mem hq, Or.inl rfl⟩
      | false =>
        by_cases hlen : (buildStack o env all e.1).length = 1
        · have heq : collectEntry o env all acc e
              = { acc with knownStacks := entryKnownStacks acc.knownStacks e.1 } := by
            simp only [collectEntry, hft, hdc, hpe, Bool.false_eq_true, if_false]
            rw [if_pos hlen]
          rw [heq]
          exact ⟨fun q hq => hq, Or.inl rfl⟩
        · have heq : collectEntry o env all acc e
              = { acc with knownStacks := entryKnownStacks acc.knownStacks e.1,
                           samples := acc.samples
                             ++ [{ target := labels,
                                   stack := (buildStack o env all e.1).reverse,
                                   value := e.2, pid := e.1.pid, aggregated := true }] } := by
            simp only [collectEntry, hft, hdc, hpe, Bool.false_eq_true, if_false]
            rw [if_neg hlen]
          rw [heq]
          exact ⟨fun q hq => hq, Or.inr ⟨labels, rfl, hlen, rfl⟩⟩

/-- Claim C1 (amended): every sample emitted by the regular pass carries
the comm (or "pid_unknown") as the LAST element of its emitted stack, and
the preceding frames are non-empty (the builder is reversed before
emission, so the comm pushed first ends up last). -/
theorem claim1_last_frame_comm (o : SessionOptions) (env : CollectEnv)
    (all : List (Nat × ProcInfoLite)) (entries : List (CountKey × Nat))
    (dead0 : List Nat) :
    ∀ smp ∈ (collectRegularLoop o env all entries dead0).samples,
      smp.stack.getLast? = some (commOf all smp.pid) ∧ 2 ≤ smp.stack.length := by
  have main : ∀ (es : List (CountKey × Nat)) (acc : RegOut),
      (∀ smp ∈ acc.samples,
        smp.stack.getLast? = some (commOf all smp.pid) ∧ 2 ≤ smp.stack.length) →
      ∀ smp ∈ (es.foldl (collectEntry o env all) acc).samples,
        smp.stack.getLast? = some (commOf all smp.pid) ∧ 2 ≤ smp.stack.length := by
    intro es
    induction es with
    | nil => intro acc hacc; simpa using hacc
    | cons e es ih =>
      intro acc hacc
      refine ih _ ?_
      rcases (collectEntry_spec o env all acc e).2 with hs | ⟨labels, hdc, hlen, hs⟩
      · intro smp hm; rw [hs] at hm; exact hacc smp hm
      · intro smp hm
        rw [hs] at hm
        rcases List.mem_append.mp hm with hm | hm
        · exact hacc smp hm
        · have hsmp : smp =
              { target := labels, stack := (buildStack o env all e.1).reverse,
                value := e.2, pid := e.1.pid, aggregated := true } := by
            simpa using hm
          subst hsmp
          obtain ⟨t, ht⟩ := buildStack_shape o env all e.1
          constructor
          · simp [ht, List.getLast?_reverse]
          · have hlen1 : (buildStack o env all e.1).length = t.length + 1 := by
              rw [ht]; simp
            simp only [List.length_reverse]
            omega
  exact main entries _ (by simp)

/-- Claim C1 (counterexample): a concrete harvest emitting one sample
whose emitted stack is ["f", "bash"]: the FIRST element is the resolved
frame "f", not the comm "bash" — the comm is last. -/
theorem claim1_counterexample :
    (collectRegularLoop
      { collectUser := true, collectKernel := false, unknownSymbolModuleOffset := false,
        unknownSymbolAddress := false, pythonEnabled := false, sampleRate := 100 }
      { pyEmitted := [], pyErr := none, drain := .ok [],
        clearCountsErr := none, clearStacksErr := none,
        findTarget := fun _ => some 0, procErr := fun _ => false,
        stacksMap := fun _ => some (1 :: List.replicate 1015 0),
        procResolve := fun _ _ => { name := "f", module := "", start := 0 },
        kallsyms := fun _ => { name := "k", module := "", start := 0 },
        alive := fun _ => true }
      [(1, { pid := 1, comm := "bash", exe := "", typ := ProfilingType.framePointers })]
      [({ pid := 1, userStack := 0, kernStack := -1 }, 5)]
      []).samples.map Sample.stack = [["f", "bash"]]
    ∧ commOf [(1, { pid := 1, comm := "bash", exe := "",
                    typ := ProfilingType.framePointers })] 1 = "bash"
    ∧ ("f" : String) ≠ "bash" := by decide

/-- Witness for C1 on the same concrete harvest. -/
theorem claim1_witness :
    ({ target := 0, stack := ["f", "bash"], value := 5, pid := 1,
       aggregated := true } : Sample).stack.getLast?
      = some (commOf [(1, { pid := 1, comm := "bash", exe := "",
                            typ := ProfilingType.framePointers })] 1)
    ∧ 2 ≤ ({ target := 0, stack := ["f", "bash"], value := 5, pid := 1,
             aggregated := true } : Sample).stack.length :=
  claim1_last_frame_comm
    { collectUser := true, collectKernel := false, unknownSymbolModuleOffset := false,
      unknownSymbolAddress := false, pythonEnabled := false, sampleRate := 100 }
    { pyEmitted := [], pyErr := none, drain := .ok [],
      clearCountsErr := none, clearStacksErr := none,
      findTarget := fun _ => some 0, procErr := fun _ => false,
      stacksMap := fun _ => some (1 :: List.replicate 1015 0),
      procResolve := fun _ _ => { name := "f", module := "", start := 0 },
      kallsyms := fun _ => { name := "k", module := "", start := 0 },
      alive := fun _ => true }
    [(1, { pid := 1, comm := "bash", exe := "", typ := ProfilingType.framePointers })]
    [({ pid := 1, userStack := 0, kernStack := -1 }, 5)]
    []
    { target := 0, stack := ["f", "bash"], value := 5, pid := 1, aggregated := true }
    (by decide)

/-- Claim C4: for every pid p in the dead set when the regular pass
begins, no sample is emitted for p during that harvest, whatever the
Counts entries hold for p. -/
theorem claim4_dead_pids_not_emitted (o : SessionOptions) (env : CollectEnv)
    (all : List (Nat × ProcInfoLite)) (entries : List (CountKey × Nat))
    (dead0 : List Nat) (p : Nat) (hp : p ∈ dead0) :
    ∀ smp ∈ (collectRegularLoop o env all entries dead0).samples, smp.pid ≠ p := by
  have main : ∀ (es : List (CountKey × Nat)) (acc : RegOut), p ∈ acc.dead →
      (∀ smp ∈ acc.samples, smp.pid ≠ p) →
      ∀ smp ∈ (es.foldl (collectEntry o env all) acc).samples, smp.pid ≠ p := by
    intro es
    induction es with
    | nil => intro acc _ hacc; simpa using hacc
    | cons e es ih =>
      intro acc hdead hacc
      refine ih _ ((collectEntry_spec o env all acc e).1 hdead) ?_
      rcases (collectEntry_spec o env all acc e).2 with hs | ⟨labels, hdc, _, hs⟩
      · intro smp hm; rw [hs] at hm; exact hacc smp hm
      · intro smp hm
        rw [hs] at hm
        rcases List.mem_append.mp hm with hm | hm
        · exact hacc smp hm
        · have hsmp : smp =
              { target := labels, stack := (buildStack o env all e.1).reverse,
                value := e.2, pid := e.1.pid, aggregated := true } := by
            simpa using hm
          subst hsmp
          intro hpe
          have hpid : e.1.pid = p := hpe
          have hcont : acc.dead.contains p = true := contains_iff_mem.mpr hdead
          rw [hpid, hcont] at hdc
          simp at hdc
  exact main entries _ hp (by simp)

/-- Witness for C4: pid 9 is dead at the start of the harvest, so the
only emitted sample (for pid 1) is not for pid 9. -/
theorem claim4_witness :
    ({ target := 0, stack := ["f", "bash"], value := 5, pid := 1,
       aggregated := true } : Sample).pid ≠ 9 :=
  claim4_dead_pids_not_emitted
    { collectUser := true, collectKernel := false, unknownSymbolModuleOffset := false,
      unknownSymbolAddress := false, pythonEnabled := false, sampleRate := 100 }
    { pyEmitted := [], pyErr := none, drain := .ok [],
      clearCountsErr := none, clearStacksErr := none,
      findTarget := fun _ => some 0, procErr := fun _ => false,
      stacksMap := fun _ => some (1 :: List.replicate 1015 0),
      procResolve := fun _ _ => { name := "f", module := "", start := 0 },
      kallsyms := fun _ => { name := "k", module := "", start := 0 },
      alive := fun _ => true }
    [(1, { pid := 1, comm := "bash", exe := "", typ := ProfilingType.framePointers })]
    [({ pid := 1, userStack := 0, kernStack := -1 }, 5)]
    [9] 9 (by decide)
    { target := 0, stack := ["f", "bash"], value := 5, pid := 1, aggregated := true }
    (by decide)

/-! ### Claims C10 and C6: cleanup and the harvest control flow -/

theorem foldl_cleanupDeadStep_components (l : List Nat) (acc : Pids) :
    (l.foldl cleanupDeadStep acc).dead = l.foldl removePid acc.dead
    ∧ (l.foldl cleanupDeadStep acc).unknown = l.foldl removePid acc.unknown
    ∧ (l.foldl cleanupDeadStep acc).all = l.foldl removeKey acc.all := by
  induction l generalizing acc with
  | nil => exact ⟨rfl, rfl, rfl⟩
  | cons a l ih =>
    simp only [List.foldl_cons]
    exact ih (cleanupDeadStep acc a)

theorem foldl_removePid_subset (l : List Nat) : ∀ (d : List Nat), l.foldl removePid d ⊆ d := by
  induction l with
  | nil => intro d; simp
  | cons a l ih =>
    intro d q hq
    simp only [List.foldl_cons] at hq
    exact removePid_subset (ih (removePid d a) hq)

theorem not_mem_foldl_removePid (l : List Nat) (q : Nat) (hq : q ∈ l) :
    ∀ (d : List Nat), q ∉ l.foldl removePid d := by
  induction l with
  | nil => cases hq
  | cons a l ih =>
    intro d
    simp only [List.foldl_cons]
    rcases List.mem_cons.mp hq with rfl | hq'
    · intro hmem
      exact not_mem_removePid_self (foldl_removePid_subset l (removePid d q) hmem)
    · exact ih hq' _

theorem foldl_removePid_eq_nil (l : List Nat) : ∀ (d : List Nat), d ⊆ l →
    l.foldl removePid d = [] := by
  induction l with
  | nil =>
    intro d h
    simpa using List.subset_nil.mp h
  | cons a l ih =>
    intro d h
    simp only [List.foldl_cons]
    apply ih
    intro q hq
    rcases mem_removePid.mp hq with ⟨hqd, hqa⟩
    rcases List.mem_cons.mp (h hqd) with rfl | h'
    · exact absurd rfl hqa
    · exact h'

theorem lookup_foldl_removeKey_isSome (l : List Nat) :
    ∀ (m : List (Nat × ProcInfoLite)) (q : Nat),
      ((l.foldl removeKey m).lookup q).isSome = true → (m.lookup q).isSome = true := by
  induction l with
  | nil => intro m q h; exact h
  | cons a l ih =>
    intro m q h
    simp only [List.foldl_cons] at h
    exact lookup_removeKey_isSome (ih (removeKey m a) q h)

theorem lookup_foldl_removeKey_none (l : List Nat) (q : Nat) (hq : q ∈ l) :
    ∀ (m : List (Nat × ProcInfoLite)), (l.foldl removeKey m).lookup q = none := by
  induction l with
  | nil => cases hq
  | cons a l ih =>
    intro m
    simp only [List.foldl_cons]
    rcases List.mem_cons.mp hq with rfl | hq'
    · cases hres : (l.foldl removeKey (removeKey m q)).lookup q with
      | none => rfl
      | some v =>
        have hs : ((removeKey m q).lookup q).isSome = true :=
          lookup_foldl_removeKey_isSome l _ q (by simp [hres])
        rw [lookup_removeKey_self] at hs
        simp at hs
    · exact ih hq' _

theorem foldl_unknownStep_spec (alive : Nat → Bool) (l : List Nat) :
    ∀ (acc : Pids),
      (l.foldl (cleanupUnknownStep alive) acc).dead = acc.dead
      ∧ (l.foldl (cleanupUnknownStep alive) acc).unknown ⊆ acc.unknown
      ∧ (∀ q, ((l.foldl (cleanupUnknownStep alive) acc).all.lookup q).isSome = true →
          (acc.all.lookup q).isSome = true) := by
  induction l with
  | nil => intro acc; exact ⟨rfl, fun _ h => h, fun _ h => h⟩
  | cons a l ih =>
    intro acc
    simp only [List.foldl_cons]
    obtain ⟨h1, h2, h3⟩ := ih (cleanupUnknownStep alive acc a)
    refine ⟨?_, ?_, ?_⟩
    · rw [h1]
      by_cases ha : alive a <;> simp [cleanupUnknownStep, ha]
    · intro q hq
      have hmem := h2 hq
      by_cases ha : alive a
      · simpa [cleanupUnknownStep, ha] using hmem
      · have h' : q ∈ removePid acc.unknown a := by
          simpa [cleanupUnknownStep, ha] using hmem
        exact removePid_subset h'
    · intro q hq
      have hsome := h3 q hq
      by_cases ha : alive a
      · simpa [cleanupUnknownStep, ha] using hsome
      · have h' : ((removeKey acc.all a).lookup q).isSome = true := by
          simpa [cleanupUnknownStep, ha] using hsome
        exact lookup_removeKey_isSome h'

/-- cleanup's overall effect on the pid views: the dead loop empties the
dead set and removes every dead pid from unknown and all; the unknown
loop only removes further pids. -/
theorem cleanupPids_spec (alive : Nat → Bool) (p : Pids) :
    (cleanupPids alive p).dead = []
    ∧ (∀ q ∈ p.dead, q ∉ (cleanupPids alive p).unknown)
    ∧ (∀ q ∈ p.dead, (cleanupPids alive p).all.lookup q = none)
    ∧ (cleanupPids alive p).unknown ⊆ p.unknown := by
  have hc := foldl_cleanupDeadStep_components p.dead p
  set p1 := p.dead.foldl cleanupDeadStep p with hp1
  obtain ⟨hd1, hu1, ha1⟩ := hc
  have hp2 := foldl_unknownStep_spec alive p1.unknown p1
  obtain ⟨hd2, hu2, ha2⟩ := hp2
  have hres : cleanupPids alive p = p1.unknown.foldl (cleanupUnknownStep alive) p1 := rfl
  refine ⟨?_, ?_, ?_, ?_⟩
  · rw [hres, hd2, hd1]
    exact foldl_removePid_eq_nil p.dead p.dead (fun q hq => hq)
  · intro q hq hmem
    rw [hres] at hmem
    have : q ∈ p1.unknown := hu2 hmem
    rw [hu1] at this
    exact not_mem_foldl_removePid p.dead q hq p.unknown this
  · intro q hq
    rw [hres]
    cases hv : (p1.unknown.foldl (cleanupUnknownStep alive) p1).all.lookup q with
    | none => rfl
    | some v =>
      have hs : (p1.all.lookup q).isSome = true := ha2 q (by simp [hv])
      rw [ha1, lookup_foldl_removeKey_none p.dead q hq p.all] at hs
      simp at hs
  · intro q hq
    rw [hres] at hq
    have : q ∈ p1.unknown := hu2 hq
    rw [hu1] at this
    exact foldl_removePid_subset p.dead p.unknown this

/-- The loop never removes a pid from the dead set. -/
theorem collectRegularLoop_dead_mono (o : SessionOptions) (env : CollectEnv)
    (all : List (Nat × ProcInfoLite)) (entries : List (CountKey × Nat))
    (dead0 : List Nat) :
    dead0 ⊆ (collectRegularLoop o env all entries dead0).dead := by
  have main : ∀ (es : List (CountKey × Nat)) (acc : RegOut),
      acc.dead ⊆ (es.foldl (collectEntry o env all) acc).dead := by
    intro es
    induction es with
    | nil => intro acc q hq; simpa using hq
    | cons e es ih =>
      intro acc q hq
      exact ih (collectEntry o env all acc e) ((collectEntry_spec o env all acc e).1 hq)
  exact fun q hq => main entries { samples := [], dead := dead0, knownStacks := [] } hq

/-- Claim C10: after a CollectProfiles call in which every phase succeeds,
the dead set is empty, and every pid that was dead before the harvest or
was marked dead during the regular pass is absent from dead, unknown and
all. -/
theorem claim10_dead_empty_after_collect (env : CollectEnv) (st : SessState)
    (entries : List (CountKey × Nat))
    (hpy : env.pyErr = none) (hdr : env.drain = .ok entries)
    (hcc : env.clearCountsErr = none) (hcs : env.clearStacksErr = none) :
    (collectProfiles env st).result = .ok ()
    ∧ (collectProfiles env st).state.pids.dead = []
    ∧ ∀ p, (p ∈ st.pids.dead
        ∨ p ∈ (collectRegularLoop st.options env st.pids.all entries st.pids.dead).dead) →
        p ∉ (collectProfiles env st).state.pids.unknown
        ∧ (collectProfiles env st).state.pids.all.lookup p = none := by
  have hout : collectProfiles env st =
      { result := .ok (),
        steps := [.python, .drain, .clearCounts, .clearStacks, .cleanupStep],
        pySamples := env.pyEmitted,
        regSamples := (collectRegularLoop st.options env st.pids.all entries st.pids.dead).samples,
        state := { st with
          roundNumber := st.roundNumber + 1,
          pids := cleanupPids env.alive
            { st.pids with
              dead := (collectRegularLoop st.options env st.pids.all entries st.pids.dead).dead } } } := by
    simp only [collectProfiles, hpy, hdr, hcc, hcs]
  rw [hout]
  set out := collectRegularLoop st.options env st.pids.all entries st.pids.dead with hdef
  obtain ⟨hc1, hc2, hc3, _⟩ := cleanupPids_spec env.alive { st.pids with dead := out.dead }
  refine ⟨rfl, hc1, ?_⟩
  intro p hp
  have hpd : p ∈ out.dead := by
    rcases hp with hp | hp
    · exact collectRegularLoop_dead_mono st.options env st.pids.all entries st.pids.dead hp
    · exact hp
  exact ⟨hc2 p hpd, hc3 p hpd⟩

/-- Witness for C10 on the concrete harvest of the C1 scenario with pid 9
dead at the start. -/
theorem claim10_witness :
    (collectProfiles
      { pyEmitted := [], pyErr := none,
        drain := .ok [({ pid := 1, userStack := 0, kernStack := -1 }, 5)],
        clearCountsErr := none, clearStacksErr := none,
        findTarget := fun _ => some 0, procErr := fun _ => false,
        stacksMap := fun _ => some (1 :: List.replicate 1015 0),
        procResolve := fun _ _ => { name := "f", module := "", start := 0 },
        kallsyms := fun _ => { name := "k", module := "", start := 0 },
        alive := fun _ => true }
      { options := { collectUser := true, collectKernel := false,
                     unknownSymbolModuleOffset := false, unknownSymbolAddress := false,
                     pythonEnabled := false, sampleRate := 100 },
        roundNumber := 0, started := true,
        pids := { unknown := [], dead := [9],
                  all := [(1, { pid := 1, comm := "bash", exe := "",
                                typ := ProfilingType.framePointers })] },
        perfEvents := [], kprobes := [], eventsReader := none,
        chanPidInfo := none, chanDead := none, chanExec := none,
        pyperf := none }).result = .ok ()
    ∧ (collectProfiles
      { pyEmitted := [], pyErr := none,
        drain := .ok [({ pid := 1, userStack := 0, kernStack := -1 }, 5)],
        clearCountsErr := none, clearStacksErr := none,
        findTarget := fun _ => some 0, procErr := fun _ => false,
        stacksMap := fun _ => some (1 :: List.replicate 1015 0),
        procResolve := fun _ _ => { name := "f", module := "", start := 0 },
        kallsyms := fun _ => { name := "k", module := "", start := 0 },
        alive := fun _ => true }
      { options := { collectUser := true, collectKernel := false,
                     unknownSymbolModuleOffset := false, unknownSymbolAddress := false,
                     pythonEnabled := false, sampleRate := 100 },
        roundNumber := 0, started := true,
        pids := { unknown := [], dead := [9],
                  all := [(1, { pid := 1, comm := "bash", exe := "",
                                typ := ProfilingType.framePointers })] },
        perfEvents := [], kprobes := [], eventsReader := none,
        chanPidInfo := none, chanDead := none, chanExec := none,
        pyperf := none }).state.pids.dead = [] :=
  ⟨(claim10_dead_empty_after_collect _ _
      [({ pid := 1, userStack := 0, kernStack := -1 }, 5)] rfl rfl rfl rfl).1,
   (claim10_dead_empty_after_collect _ _
      [({ pid := 1, userStack := 0, kernStack := -1 }, 5)] rfl rfl rfl rfl).2.1⟩

/-- Claim C6: a python-pass error aborts CollectProfiles with that error:
the regular pass emits nothing and neither the drain, the clears nor the
cleanup run; and cleanup runs exactly when the whole call succeeds, so a
drain or clear error also prevents cleanup. -/
theorem claim6_python_error_aborts (env : CollectEnv) (st : SessState) :
    (∀ e, env.pyErr = some e →
      (collectProfiles env st).result = .error e
      ∧ (collectProfiles env st).regSamples = []
      ∧ (collectProfiles env st).steps = [HarvestStep.python])
    ∧ (HarvestStep.cleanupStep ∈ (collectProfiles env st).steps ↔
        (collectProfiles env st).result = .ok ()) := by
  constructor
  · intro e he
    refine ⟨?_, ?_, ?_⟩ <;> simp [collectProfiles, he]
  · cases hpy : env.pyErr with
    | some e =>
      simp only [collectProfiles, hpy]
      constructor
      · intro hmem; simp at hmem
      · intro hres; cases hres
    | none =>
      cases hdr : env.drain with
      | error e =>
        simp only [collectProfiles, hpy, hdr]
        constructor
        · intro hmem; simp at hmem
        · intro hres; cases hres
      | ok entries =>
        cases hcc : env.clearCountsErr with
        | some e =>
          simp only [collectProfiles, hpy, hdr, hcc]
          constructor
          · intro hmem; simp at hmem
          · intro hres; cases hres
        | none =>
          cases hcs : env.clearStacksErr with
          | some e =>
            simp only [collectProfiles, hpy, hdr, hcc, hcs]
            constructor
            · intro hmem; simp at hmem
            · intro hres; cases hres
          | none =>
            simp [collectProfiles, hpy, hdr, hcc, hcs]

/-- Witness for C6: a concrete python-pass failure. -/
theorem claim6_witness :
    (collectProfiles
      { pyEmitted := [], pyErr := some "pyperf event reader failed",
        drain := .ok [], clearCountsErr := none, clearStacksErr := none,
        findTarget := fun _ => none, procErr := fun _ => false,
        stacksMap := fun _ => none,
        procResolve := fun _ _ => { name := "", module := "", start := 0 },
        kallsyms := fun _ => { name := "", module := "", start := 0 },
        alive := fun _ => true }
      (newSession
        { collectUser := true, collectKernel := true, unknownSymbolModuleOffset := false,
          unknownSymbolAddress := false, pythonEnabled := true, sampleRate := 100 })).result
      = .error "pyperf event reader failed"
    ∧ (collectProfiles
      { pyEmitted := [], pyErr := some "pyperf event reader failed",
        drain := .ok [], clearCountsErr := none, clearStacksErr := none,
        findTarget := fun _ => none, procErr := fun _ => false,
        stacksMap := fun _ => none,
        procResolve := fun _ _ => { name := "", module := "", start := 0 },
        kallsyms := fun _ => { name := "", module := "", start := 0 },
        alive := fun _ => true }
      (newSession
        { collectUser := true, collectKernel := true, unknownSymbolModuleOffset := false,
          unknownSymbolAddress := false, pythonEnabled := true, sampleRate := 100 })).regSamples
      = []
    ∧ (collectProfiles
      { pyEmitted := [], pyErr := some "pyperf event reader failed",
        drain := .ok [], clearCountsErr := none, clearStacksErr := none,
        findTarget := fun _ => none, procErr := fun _ => false,
        stacksMap := fun _ => none,
        procResolve := fun _ _ => { name := "", module := "", start := 0 },
        kallsyms := fun _ => { name := "", module := "", start := 0 },
        alive := fun _ => true }
      (newSession
        { collectUser := true, collectKernel := true, unknownSymbolModuleOffset := false,
          unknownSymbolAddress := false, pythonEnabled := true, sampleRate := 100 })).steps
      = [HarvestStep.python] :=
  (claim6_python_error_aborts _ _).1 "pyperf event reader failed" rfl

/-! ### Claim C3: the unknown/all relation across operations -/

/-- The only operations that insert a pid into the unknown set: a
pid-info or pid-exec event whose pid has no target. -/
def savesUnknown (op : Op) (p : Nat) : Prop :=
  match op with
  | .pidInfo q none _ _ => q = p
  | .pidExec q none _ _ => q = p
  | _ => False

/-- startProfilingLocked never touches the unknown set. -/
theorem startProfilingLocked_unknown (st : SessState) (pid : Nat)
    (exeRes : Option String) (commRes : Option (List Nat)) (st' : SessState)
    (h : startProfilingLocked st pid exeRes commRes = some st') :
    st'.pids.unknown = st.pids.unknown := by
  simp only [startProfilingLocked] at h
  cases hs : st.started with
  | false =>
    rw [hs] at h
    simp only [Bool.not_false, if_true, Option.some.injEq] at h
    subst h; rfl
  | true =>
    rw [hs] at h
    simp only [Bool.not_true, Bool.false_eq_true, if_false] at h
    cases hsel : selectProfilingType st.options pid exeRes commRes with
    | none => rw [hsel] at h; cases h
    | some typ =>
      rw [hsel] at h
      dsimp only at h
      by_cases hty : typ.typ = ProfilingType.python
      · rw [if_pos hty] at h
        simp only [Option.some.injEq] at h
        subst h; rfl
      · rw [if_neg hty] at h
        simp only [Option.some.injEq] at h
        subst h; rfl

/-- UpdateTargets only removes pids from the unknown set. -/
theorem updateTargets_unknown_subset (st : SessState) (find : Nat → Option Nat)
    (exeOf : Nat → Option String) (commReadOf : Nat → Option (List Nat)) (st' : SessState)
    (h : updateTargets st find exeOf commReadOf = some st') :
    st'.pids.unknown ⊆ st.pids.unknown := by
  have main : ∀ (l : List Nat) (acc : SessState) (res : SessState),
      l.foldlM
        (fun acc pid =>
          match find pid with
          | none => some acc
          | some _ => do
            let acc' ← startProfilingLocked acc pid (exeOf pid) (commReadOf pid)
            some { acc' with
                   pids := { acc'.pids with unknown := removePid acc'.pids.unknown pid } })
        acc = some res →
      res.pids.unknown ⊆ acc.pids.unknown := by
    intro l
    induction l with
    | nil =>
      intro acc res h
      simp only [List.foldlM_nil, Option.pure_def, Option.some.injEq] at h
      subst h; exact fun q hq => hq
    | cons a l ih =>
      intro acc res h
      rw [List.foldlM_cons] at h
      cases hfa : find a with
      | none =>
        rw [hfa] at h
        exact ih acc res h
      | some t =>
        rw [hfa] at h
        cases hsp : startProfilingLocked acc a (exeOf a) (commReadOf a) with
        | none => rw [hsp] at h; cases h
        | some acc' =>
          rw [hsp] at h
          simp only [Option.bind_eq_bind, Option.some_bind] at h
          intro q hq
          have hsub := ih _ res h hq
          have hacc' : acc'.pids.unknown = acc.pids.unknown :=
            startProfilingLocked_unknown acc a (exeOf a) (commReadOf a) acc' hsp
          have : q ∈ removePid acc'.pids.unknown a := hsub
          rw [hacc'] at this
          exact removePid_subset this
  exact main st.pids.unknown st st' h

/-- A CollectProfiles call only removes pids from the unknown set. -/
theorem collectProfiles_unknown_subset (env : CollectEnv) (st : SessState) :
    (collectProfiles env st).state.pids.unknown ⊆ st.pids.unknown := by
  cases hpy : env.pyErr with
  | some e =>
    simp only [collectProfiles, hpy]
    exact fun q hq => hq
  | none =>
    cases hdr : env.drain with
    | error e =>
      simp only [collectProfiles, hpy, hdr]
      exact fun q hq => hq
    | ok entries =>
      cases hcc : env.clearCountsErr with
      | some e =>
        simp only [collectProfiles, hpy, hdr, hcc]
        exact fun q hq => hq
      | none =>
        cases hcs : env.clearStacksErr with
        | some e =>
          simp only [collectProfiles, hpy, hdr, hcc, hcs]
          exact fun q hq => hq
        | none =>
          simp only [collectProfiles, hpy, hdr, hcc, hcs]
          intro q hq
          exact (cleanupPids_spec env.alive
            { unknown := st.pids.unknown,
              dead := (collectRegularLoop st.options env st.pids.all entries st.pids.dead).dead,
              all := st.pids.all }).2.2.2 hq

/-- Claim C3 (amended): across every public operation and queue-event
handler, a pid can enter the unknown set only through the untargeted
pid-info/pid-exec handler (saveUnknownPIDLocked), and that insertion
leaves the all map unchanged — so unknown ⊆ all is NOT maintained: the
all map deliberately excludes unknown pids. -/
theorem claim3_unknown_growth (st : SessState) (op : Op) (st' : SessState) (p : Nat)
    (happ : applyOp st op = some st') (hp : p ∈ st'.pids.unknown) :
    p ∈ st.pids.unknown ∨ (savesUnknown op p ∧ st'.pids.all = st.pids.all) := by
  cases op with
  | start ok perf kps rd ci cd ce =>
    simp only [applyOp] at happ
    by_cases hok : ok
    · rw [if_pos hok] at happ
      simp only [Option.some.injEq] at happ
      subst happ
      exact Or.inl hp
    · rw [if_neg hok] at happ
      simp only [Option.some.injEq] at happ
      subst happ
      exact Or.inl hp
  | stop =>
    simp only [applyOp, Option.some.injEq] at happ
    subst happ
    exact Or.inl hp
  | update o =>
    simp only [applyOp, Option.some.injEq] at happ
    subst happ
    exact Or.inl hp
  | updateTargets find exeOf commReadOf =>
    simp only [applyOp] at happ
    exact Or.inl (updateTargets_unknown_subset st find exeOf commReadOf st' happ hp)
  | collect env =>
    simp only [applyOp, Option.some.injEq] at happ
    subst happ
    exact Or.inl (collectProfiles_unknown_subset env st hp)
  | pidInfo pid target exeRes commRes =>
    simp only [applyOp, handlePidEvent] at happ
    cases hdc : st.pids.dead.contains pid with
    | true =>
      rw [hdc] at happ
      simp only [if_true, Option.some.injEq] at happ
      subst happ
      exact Or.inl hp
    | false =>
      rw [hdc] at happ
      simp only [Bool.false_eq_true, if_false] at happ
      cases target with
      | none =>
        simp only [Option.some.injEq] at happ
        subst happ
        rcases mem_insertPid.mp hp with rfl | hmem
        · exact Or.inr ⟨rfl, rfl⟩
        · exact Or.inl hmem
      | some t =>
        have := startProfilingLocked_unknown st pid exeRes commRes st' happ
        rw [this] at hp
        exact Or.inl hp
  | pidExec pid target exeRes commRes =>
    simp only [applyOp, handlePidEvent] at happ
    cases hdc : st.pids.dead.contains pid with
    | true =>
      rw [hdc] at happ
      simp only [if_true, Option.some.injEq] at happ
      subst happ
      exact Or.inl hp
    | false =>
      rw [hdc] at happ
      simp only [Bool.false_eq_true, if_false] at happ
      cases target with
      | none =>
        simp only [Option.some.injEq] at happ
        subst happ
        rcases mem_insertPid.mp hp with rfl | hmem
        · exact Or.inr ⟨rfl, rfl⟩
        · exact Or.inl hmem
      | some t =>
        have := startProfilingLocked_unknown st pid exeRes commRes st' happ
        rw [this] at hp
        exact Or.inl hp
  | pidDead pid =>
    simp only [applyOp, Option.some.injEq] at happ
    subst happ
    exact Or.inl hp

/-- Claim C3 (counterexample): starting from a fresh session, a single
pid-info event for an untargeted pid leaves the pid in unknown with no
entry in all — unknown ⊆ all fails right after the handler completes. -/
theorem claim3_counterexample :
    (applyOp
      (newSession
        { collectUser := true, collectKernel := true, unknownSymbolModuleOffset := false,
          unknownSymbolAddress := false, pythonEnabled := false, sampleRate := 100 })
      (Op.pidInfo 5 none none none)).map
        (fun t => (t.pids.unknown, t.pids.all.lookup 5))
      = some ([5], none)
    ∧ (5 : Nat) ∈ ([5] : List Nat)
    ∧ (none : Option ProcInfoLite).isSome = false := by decide

/-- Witness for C3 on the fresh-session pid-info event. -/
theorem claim3_witness :
    5 ∈ (newSession
        { collectUser := true, collectKernel := true, unknownSymbolModuleOffset := false,
          unknownSymbolAddress := false, pythonEnabled := false,
          sampleRate := 100 }).pids.unknown
    ∨ (savesUnknown (Op.pidInfo 5 none none none) 5
       ∧ (saveUnknownPIDLocked
            (newSession
              { collectUser := true, collectKernel := true,
                unknownSymbolModuleOffset := false, unknownSymbolAddress := false,
                pythonEnabled := false, sampleRate := 100 }) 5).pids.all
          = (newSession
              { collectUser := true, collectKernel := true,
                unknownSymbolModuleOffset := false, unknownSymbolAddress := false,
                pythonEnabled := false, sampleRate := 100 }).pids.all) :=
  claim3_unknown_growth
    (newSession
      { collectUser := true, collectKernel := true, unknownSymbolModuleOffset := false,
        unknownSymbolAddress := false, pythonEnabled := false, sampleRate := 100 })
    (Op.pidInfo 5 none none none)
    (saveUnknownPIDLocked
      (newSession
        { collectUser := true, collectKernel := true, unknownSymbolModuleOffset := false,
          unknownSymbolAddress := false, pythonEnabled := false, sampleRate := 100 }) 5)
    5 rfl (by decide)

end PyroEbpf
